import Mathlib

/-!
# Guide Explorer (`explore.js`)

A shallow embedding of the `GuideExplorer` class of `explore.js` and the
properties of its console output and statistics.

## Modelling conventions

* **Console.**  `console.log` appends one line to standard output.  A method is
  a value of `Run α`: the lines it wrote, in order, together with either the
  value it returned or the exception it threw.  Sequencing keeps the lines
  written before an exception, which is what a terminal shows when the process
  dies from an uncaught error.
* **File system.**  Only the three directories `lessons`, `guides` and
  `resources` directly under `__dirname` are ever touched, and only through
  `fs.readdirSync(path.join(__dirname, dir))` and
  `fs.existsSync(path.join(__dirname, dir, fileName))`.  A file-system state
  therefore maps a directory name to what sits at `__dirname/<dir>`: nothing,
  something that is not a directory, or a directory with its entries.  In a
  `FileSystem` names are compared as exact strings (a case-sensitive volume)
  and every listed entry exists (symbolic links count as the object they
  resolve to); the output and statistics theorems are stated over these
  states.  A `Volume` is the general state: it carries the name matching of
  the volume (exact, case-folding, normalising, ...) and lets an entry be a
  symbolic link whose target is missing.  Every `FileSystem` is a `Volume`
  (`FileSystem.toVolume`), and the existence check agrees on it.  Permissions
  are not modelled.
* **Paths.**  `path.join` of `__dirname`, a directory name and a plain file
  name (one segment, as every catalog name is) addresses the entry of that
  name in that directory.  `path.join` throws a `TypeError` when an argument is
  `undefined`, which is what an out-of-range array read yields.
* **Numbers.**  Array lengths are below `2^32`, so the arithmetic of `getStats`
  stays far below `2^53` and is exact; it is modelled in `Nat`.
-/

namespace GuideExplorer

/-! ## Runtime model -/

/-- Exceptions the script can die from. -/
inductive JsError
  | ENOENT (dir : String)
  | ENOTDIR (dir : String)
  | TypeError
  deriving DecidableEq, Repr

/-- Outcome of running a piece of the script: lines written and final result. -/
structure Run (α : Type) where
  written : List String
  result : Except JsError α

namespace Run

/-- Return a value without writing. -/
def ret {α : Type} (a : α) : Run α := ⟨[], .ok a⟩

/-- Sequencing: the second part runs only if the first did not throw. -/
def andThen {α β : Type} (m : Run α) (f : α → Run β) : Run β :=
  match m.result with
  | .error e => ⟨m.written, .error e⟩
  | .ok a => ⟨m.written ++ (f a).written, (f a).result⟩

/-- An uncaught exception. -/
def raise {α : Type} (e : JsError) : Run α := ⟨[], .error e⟩

/-- A computation that does not write, such as `getStats`. -/
def lift {α : Type} (r : Except JsError α) : Run α := ⟨[], r⟩

end Run

instance : Monad Run where
  pure := Run.ret
  bind := Run.andThen

/-- Model of `console.log(line)`. -/
def consoleLog (line : String) : Run Unit := ⟨[line], .ok ()⟩

/-- Model of `Array.prototype.forEach`, the callback receiving element and index,
starting from index `i`. -/
def forEachFrom {α : Type} (i : Nat) : List α → (α → Nat → Run Unit) → Run Unit
  | [], _ => pure ()
  | x :: xs, f => do
    f x i
    forEachFrom (i + 1) xs f

/-- Model of `xs.forEach((x, index) => ...)`. -/
def forEach {α : Type} (xs : List α) (f : α → Nat → Run Unit) : Run Unit :=
  forEachFrom 0 xs f

/-! ## File-system model -/

/-- Kind of an entry of a directory. -/
inductive EntryKind
  | file
  | directory
  deriving DecidableEq, Repr

/-- One entry of a directory. -/
structure DirEntry where
  name : String
  kind : EntryKind
  deriving DecidableEq, Repr

/-- What sits at `__dirname/<dir>`. -/
inductive BaseNode
  | absent
  | notDirectory
  | directory (entries : List DirEntry)
  deriving DecidableEq, Repr

/-- A file-system state, as seen from `__dirname`. -/
abbrev FileSystem := String → BaseNode

/-- Model of `fs.readdirSync(path.join(this.basePath, dir))`: the names of the
entries, or the error thrown. -/
def readdirSync (fsys : FileSystem) (dir : String) : Except JsError (List String) :=
  match fsys dir with
  | .directory entries => .ok (entries.map DirEntry.name)
  | .absent => .error (.ENOENT dir)
  | .notDirectory => .error (.ENOTDIR dir)

/-- Model of `fs.existsSync(path.join(this.basePath, dir, fileName))`; it never
throws. -/
def existsSync (fsys : FileSystem) (dir fileName : String) : Bool :=
  match fsys dir with
  | .directory entries => entries.any (fun e => e.name == fileName)
  | _ => false

/-! ### Volumes: name matching and dangling links -/

/-- An entry of a directory on a volume.  Field `target` is the kind of object
the entry resolves to once symbolic links are followed, and `none` for a
symbolic link whose target is missing. -/
structure VolumeEntry where
  name : String
  target : Option EntryKind
  deriving DecidableEq, Repr

/-- What sits at `__dirname/<dir>` on a volume. -/
inductive VolumeNode
  | absent
  | notDirectory
  | directory (entries : List VolumeEntry)
  deriving DecidableEq, Repr

/-- A general file-system state, as seen from `__dirname`.  Field `sameName`
says which stored names the volume takes a requested name to denote: string
equality on a case-sensitive volume, equality up to case on a case-folding
one.  A name always denotes itself. -/
structure Volume where
  sameName : String → String → Bool
  sameName_refl : ∀ name, sameName name name = true
  node : String → VolumeNode

/-- Model of `fs.statSync(path.join(this.basePath, dir, fileName))`, the lookup
behind `fs.existsSync`: the kind of the object the path resolves to, or the
error thrown when the directory or the object is missing. -/
def Volume.statSync (vol : Volume) (dir fileName : String) : Except JsError EntryKind :=
  match vol.node dir with
  | .absent => .error (.ENOENT dir)
  | .notDirectory => .error (.ENOTDIR dir)
  | .directory entries =>
    match entries.findSome? fun e => if vol.sameName e.name fileName then e.target else none with
    | some kind => .ok kind
    | none => .error (.ENOENT fileName)

/-- Model of `fs.existsSync(path.join(this.basePath, dir, fileName))` on a
volume: true when the lookup succeeds, false (never an exception) when it
throws. -/
def Volume.existsSync (vol : Volume) (dir fileName : String) : Bool :=
  match vol.statSync dir fileName with
  | .ok _ => true
  | .error _ => false

/-- A `FileSystem` seen as a volume: case-sensitive, every entry existing. -/
def FileSystem.toVolume (fsys : FileSystem) : Volume where
  sameName := fun stored requested => stored == requested
  sameName_refl := fun name => beq_self_eq_true name
  node := fun dir =>
    match fsys dir with
    | .absent => .absent
    | .notDirectory => .notDirectory
    | .directory entries => .directory (entries.map fun e => ⟨e.name, some e.kind⟩)

/-! ## `GuideExplorer` -/

/-- Keys of `this.colors`. -/
inductive Color
  | reset | bright | red | green | yellow | blue | magenta | cyan | white
  deriving DecidableEq, Repr

/-- The table `this.colors`. -/
def colors : Color → String
  | .reset => "\x1b[0m"
  | .bright => "\x1b[1m"
  | .red => "\x1b[31m"
  | .green => "\x1b[32m"
  | .yellow => "\x1b[33m"
  | .blue => "\x1b[34m"
  | .magenta => "\x1b[35m"
  | .cyan => "\x1b[36m"
  | .white => "\x1b[37m"

/-- Method `colorize(text, color)`. -/
def colorize (text : String) (color : Color) : String :=
  colors color ++ text ++ colors .reset

/-- Method `displayHeader()`. -/
def displayHeader : Run Unit := do
  consoleLog (colorize "🚀 Ultimate Full-Stack Web Development Guide" .cyan)
  consoleLog (colorize "===============================================" .yellow)
  consoleLog ""

/-- Element type of the local array `phases` of `displayMenu`. -/
structure Phase where
  name : String
  lessons : List String
  files : List String
  deriving DecidableEq, Repr

/-- The local constant `phases` of `displayMenu`. -/
def phases : List Phase :=
  [ { name := "Phase 1: Foundations 🏗️"
      lessons :=
        [ "Lesson 0: Computer Basics"
        , "Lesson 0.5: Internet Concepts"
        , "Lesson 0.75: Git and GitHub"
        , "Lesson 1: Introduction to Web Development"
        , "Lesson 2: HTML Basics"
        , "Lesson 3: CSS Basics"
        , "Lesson 4: JavaScript Basics" ]
      files :=
        [ "Lesson 00_ Computer Basics.md"
        , "Lesson 00.5_ Internet Concepts.md"
        , "Lesson 00.75_ Git and GitHub.md"
        , "Lesson 01_ Introduction to Web Development.md"
        , "Lesson 02_ HTML Basics.md"
        , "Lesson 03_ CSS Basics.md"
        , "Lesson 04_ JavaScript Basics.md" ] }
  , { name := "Phase 2: Backend Development ⚙️"
      lessons :=
        [ "Lesson 5: Backend Development and Node.js"
        , "Lesson 6: Express.js"
        , "Lesson 7: Databases and MongoDB"
        , "Lesson 8: Mongoose" ]
      files :=
        [ "Lesson 05_ Backend Development and Node.js.md"
        , "Lesson 06_ Express.js.md"
        , "Lesson 07_ Databases and MongoDB.md"
        , "Lesson 08_ Mongoose.md" ] }
  , { name := "Phase 3: Frontend Frameworks ⚛️"
      lessons :=
        [ "Lesson 9: React Basics"
        , "Lesson 10: React Hooks"
        , "Lesson 11: React Router"
        , "Lesson 12: Redux" ]
      files :=
        [ "Lesson 09_ React Basics.md"
        , "Lesson 10_ React Hooks.md"
        , "Lesson 11_ React Router.md"
        , "Lesson 12_ Redux.md" ] }
  , { name := "Phase 4: Advanced Topics 🚀"
      lessons :=
        [ "Lesson 13: Authentication & Authorization"
        , "Lesson 14: Testing - Unit, Integration & E2E"
        , "Lesson 15: Deployment & DevOps"
        , "Lesson 16: Full-Stack Development Roadmap & Best Practices" ]
      files :=
        [ "Lesson 13_ Authentication & Authorization.md"
        , "Lesson 14_ Testing - Unit, Integration & E2E.md"
        , "Lesson 15_ Deployment & DevOps.md"
        , "Lesson 16_ Full-Stack Development Roadmap & Best Practices.md" ] }
  , { name := "Phase 5: Specialized Topics 🎯"
      lessons :=
        [ "Lesson 17: API Design and GraphQL"
        , "Lesson 18: Real-Time Applications with WebSockets" ]
      files :=
        [ "Lesson 17_ API Design and GraphQL.md"
        , "Lesson 18_ Real-Time Applications with WebSockets.md" ] } ]

/-- Element type of the local arrays `guides` and `resources` of `displayMenu`. -/
structure Item where
  name : String
  file : String
  deriving DecidableEq, Repr

/-- The local constant `guides` of `displayMenu`. -/
def guides : List Item :=
  [ { name := "Advanced JavaScript Guide", file := "Advanced_JavaScript_Guide.md" }
  , { name := "Advanced React Guide", file := "Advanced_React_Guide.md" }
  , { name := "Advanced Topics Guide", file := "Advanced_Topics_Guide.md" }
  , { name := "API Calling & HTTP Methods Guide", file := "API_Calling_HTTP_Methods_Guide.md" }
  , { name := "Backend Technologies", file := "Backend_Technologies.md" }
  , { name := "Database Technologies", file := "Database_Technologies.md" }
  , { name := "DevOps Deployment", file := "DevOps_Deployment.md" }
  , { name := "Frontend Technologies", file := "Frontend_Technologies.md" }
  , { name := "Postman API Testing Guide", file := "Postman_API_Testing_Guide.md" }
  , { name := "Programming Languages Guide", file := "Programming_Languages_Guide.md" }
  , { name := "Tools & Frameworks", file := "Tools_Frameworks.md" }
  , { name := "Website Libraries & Framework Guide", file := "Website_Libraries_Framework_Guide.md" } ]

/-- The local constant `resources` of `displayMenu`. -/
def resources : List Item :=
  [ { name := "Career Best Practices", file := "Career_Best_Practices.md" }
  , { name := "Code Examples & Practical Implementations"
      file := "Code_Examples_Practical_Implementations.md" }
  , { name := "Learning Paths & Skill Trees", file := "Learning_Paths_Skill_Trees.md" } ]

/-- The expression `exists ? '✅' : '❌'`. -/
def statusGlyph ( exists_ : Bool) : String :=
  if exists_ then "✅" else "❌"

/-- The loop `phases.forEach((phase, phaseIndex) => ...)` of `displayMenu`, over an
arbitrary array of phases.  Reading `phase.files[lessonIndex]` past the end
yields `undefined`, on which `path.join` throws. -/
def displayPhases (fsys : FileSystem) (ps : List Phase) : Run Unit :=
  forEach ps fun phase phaseIndex => do
    consoleLog (colorize (toString (phaseIndex + 1) ++ ". " ++ phase.name) .yellow)
    forEach phase.lessons fun lesson lessonIndex =>
      match phase.files[lessonIndex]? with
      | none => Run.raise .TypeError
      | some fileName => do
        let status := statusGlyph (existsSync fsys "lessons" fileName)
        consoleLog ("   " ++ status ++ " " ++ lesson)
    consoleLog ""

/-- The loops `guides.forEach(...)` and `resources.forEach(...)` of `displayMenu`,
over an arbitrary array of items checked in directory `dir`. -/
def displayItems (fsys : FileSystem) (dir : String) (items : List Item) : Run Unit :=
  forEach items fun item _ => do
    let status := statusGlyph (existsSync fsys dir item.file)
    consoleLog ("   " ++ status ++ " " ++ item.name)

/-- Method `displayMenu()`. -/
def displayMenu (fsys : FileSystem) : Run Unit := do
  consoleLog (colorize "📚 Learning Path:" .green)
  consoleLog ""
  displayPhases fsys phases
  consoleLog (colorize "📖 Specialized Guides:" .green)
  consoleLog ""
  displayItems fsys "guides" guides
  consoleLog ""
  consoleLog (colorize "📚 Resources:" .green)
  consoleLog ""
  displayItems fsys "resources" resources
  consoleLog ""
  consoleLog (colorize "💡 Tips:" .magenta)
  consoleLog "• Start with Lesson 0 if you\x27re new to programming"
  consoleLog "• Each lesson includes practical assignments and projects"
  consoleLog "• Use the specialized guides for deep dives into specific topics"
  consoleLog "• Check resources for career guidance and additional examples"
  consoleLog ""
  consoleLog (colorize "🎯 Next Steps:" .cyan)
  consoleLog "1. Choose your starting point based on your experience level"
  consoleLog "2. Follow the learning path sequentially for best results"
  consoleLog "3. Practice with the code examples and assignments"
  consoleLog "4. Join our community for support and questions"
  consoleLog ""

/-- The object returned by `getStats()`. -/
structure Stats where
  totalLessons : Nat
  totalGuides : Nat
  totalResources : Nat
  totalFiles : Nat
  estimatedHours : Nat
  deriving DecidableEq, Repr

/-- Method `getStats()`. -/
def getStats (fsys : FileSystem) : Except JsError Stats := do
  let lessons := (← readdirSync fsys "lessons").length
  let guides := (← readdirSync fsys "guides").length
  let resources := (← readdirSync fsys "resources").length
  let estimatedHours := (lessons * 6) + (guides * 3) + (resources * 2)
  return {
    totalLessons := lessons
    totalGuides := guides
    totalResources := resources
    totalFiles := lessons + guides + resources + 2
    estimatedHours := estimatedHours }

/-- Method `displayStats()`. -/
def displayStats (fsys : FileSystem) : Run Unit := do
  let stats ← Run.lift (getStats fsys)
  consoleLog (colorize "📊 Repository Statistics:" .green)
  consoleLog ("Total Lessons: " ++ toString stats.totalLessons)
  consoleLog ("Total Guides: " ++ toString stats.totalGuides)
  consoleLog ("Total Resources: " ++ toString stats.totalResources)
  consoleLog ("Total Files: " ++ toString stats.totalFiles)
  consoleLog ("Estimated Learning Time: " ++ toString stats.estimatedHours ++ " hours")
  consoleLog ""

/-- Method `run()`. -/
def run (fsys : FileSystem) : Run Unit := do
  displayHeader
  displayStats fsys
  displayMenu fsys
  consoleLog (colorize "Happy learning! 🚀" .green)
  consoleLog ""

/-! ## Specification-side definitions

These describe the expected output independently of the loops of the script. -/

/-- Names of the entries directly under `__dirname/<dir>`; empty when that is
not a directory. -/
def entryNames (fsys : FileSystem) (dir : String) : List String :=
  match fsys dir with
  | .directory entries => entries.map DirEntry.name
  | _ => []

/-- A status line: three spaces, glyph, space, title; the glyph is the present
glyph exactly when `file` is the name of an entry of `dir`. -/
def statusLine (fsys : FileSystem) (dir title file : String) : String :=
  "   " ++ (if file ∈ entryNames fsys dir then "✅" else "❌") ++ " " ++ title

/-- Status lines of one phase: lesson `i` paired with file `i`. -/
def lessonLines (fsys : FileSystem) (p : Phase) : List String :=
  (p.lessons.zip p.files).map fun tf => statusLine fsys "lessons" tf.1 tf.2

/-- Lines of phase number `n`: heading, lesson status lines, blank line. -/
def phaseBlock (fsys : FileSystem) (n : Nat) (p : Phase) : List String :=
  colorize (toString n ++ ". " ++ p.name) .yellow :: lessonLines fsys p ++ [""]

/-- Status lines of a list of guides or resources kept in `dir`. -/
def itemLines (fsys : FileSystem) (dir : String) (items : List Item) : List String :=
  items.map fun item => statusLine fsys dir item.name item.file

/-- Heading of the lesson part of the menu. -/
def learningPathHeading : List String :=
  [colorize "📚 Learning Path:" .green, ""]

/-- Heading of the guide part of the menu. -/
def guidesHeading : List String :=
  [colorize "📖 Specialized Guides:" .green, ""]

/-- Heading of the resource part of the menu, with the blank line before it. -/
def resourcesHeading : List String :=
  ["", colorize "📚 Resources:" .green, ""]

/-- The fixed tips and next-steps text closing the menu. -/
def tipsAndNextSteps : List String :=
  [ ""
  , colorize "💡 Tips:" .magenta
  , "• Start with Lesson 0 if you\x27re new to programming"
  , "• Each lesson includes practical assignments and projects"
  , "• Use the specialized guides for deep dives into specific topics"
  , "• Check resources for career guidance and additional examples"
  , ""
  , colorize "🎯 Next Steps:" .cyan
  , "1. Choose your starting point based on your experience level"
  , "2. Follow the learning path sequentially for best results"
  , "3. Practice with the code examples and assignments"
  , "4. Join our community for support and questions"
  , "" ]

/-- Everything the menu prints after the last phase block. -/
def menuAfterPhases (fsys : FileSystem) : List String :=
  guidesHeading ++ itemLines fsys "guides" guides
    ++ resourcesHeading ++ itemLines fsys "resources" resources
    ++ tipsAndNextSteps

/-- The whole expected menu. -/
def menuLines (fsys : FileSystem) : List String :=
  learningPathHeading
    ++ (phases.enum.flatMap fun ip => phaseBlock fsys (ip.1 + 1) ip.2)
    ++ menuAfterPhases fsys

/-- The three lines of the header banner. -/
def headerLines : List String :=
  [ colorize "🚀 Ultimate Full-Stack Web Development Guide" .cyan
  , colorize "===============================================" .yellow
  , "" ]

/-- The statistics block for given entry counts of the three directories. -/
def statsLines (lessons guides resources : Nat) : List String :=
  [ colorize "📊 Repository Statistics:" .green
  , "Total Lessons: " ++ toString lessons
  , "Total Guides: " ++ toString guides
  , "Total Resources: " ++ toString resources
  , "Total Files: " ++ toString (lessons + guides + resources + 2)
  , "Estimated Learning Time: " ++ toString (lessons * 6 + guides * 3 + resources * 2) ++ " hours"
  , "" ]

/-- The closing line and the blank line after it. -/
def closingLines : List String :=
  [colorize "Happy learning! 🚀" .green, ""]

/-- Whether a line is a status line showing the present glyph. -/
def showsPresent (line : String) : Bool :=
  "   ✅ ".data.isPrefixOf line.data

/-- A regular file named exactly `fileName` sits directly under `__dirname/<dir>`. -/
def HasRegularFile (fsys : FileSystem) (dir fileName : String) : Prop :=
  ∃ entries, fsys dir = .directory entries ∧
    ∃ e ∈ entries, e.name = fileName ∧ e.kind = .file

/-- Titles of all catalog lessons, in declared phase and lesson order. -/
def lessonTitles : List String :=
  phases.flatMap Phase.lessons

/-- Backing file names of all catalog lessons, in declared order. -/
def lessonFiles : List String :=
  phases.flatMap Phase.files

/-- A phase whose `files` array is shorter than its `lessons` array. -/
def shortPhase : Phase :=
  { name := "P", lessons := ["a", "b"], files := ["x"] }

/-! ## Sample file-system states -/

/-- A regular file entry. -/
def regularFile (name : String) : DirEntry := ⟨name, .file⟩

/-- The lessons directory holds exactly the seven Phase-1 files; the other two
directories are empty. -/
def fsPhase1Only : FileSystem := fun dir =>
  if dir = "lessons" then
    .directory
      [ regularFile "Lesson 00_ Computer Basics.md"
      , regularFile "Lesson 00.5_ Internet Concepts.md"
      , regularFile "Lesson 00.75_ Git and GitHub.md"
      , regularFile "Lesson 01_ Introduction to Web Development.md"
      , regularFile "Lesson 02_ HTML Basics.md"
      , regularFile "Lesson 03_ CSS Basics.md"
      , regularFile "Lesson 04_ JavaScript Basics.md" ]
  else if dir = "guides" then .directory []
  else if dir = "resources" then .directory []
  else .absent

/-- Each directory holds a single file whose name is not in the catalog. -/
def fsStrayFiles : FileSystem := fun dir =>
  if dir = "lessons" then .directory [regularFile "notes.txt"]
  else if dir = "guides" then .directory [regularFile "draft.md"]
  else if dir = "resources" then .directory [regularFile "links.txt"]
  else .absent

/-- The lessons directory is absent; the other two directories are empty. -/
def fsNoLessons : FileSystem := fun dir =>
  if dir = "guides" then .directory []
  else if dir = "resources" then .directory []
  else .absent

/-- The guides directory holds one sub-directory named like a catalog guide. -/
def fsGuideIsDirectory : FileSystem := fun dir =>
  if dir = "lessons" then .directory []
  else if dir = "guides" then .directory [⟨"Advanced_React_Guide.md", .directory⟩]
  else if dir = "resources" then .directory []
  else .absent

/-- All three directories exist and are empty. -/
def fsEmptyDirs : FileSystem := fun dir =>
  if dir = "lessons" then .directory []
  else if dir = "guides" then .directory []
  else if dir = "resources" then .directory []
  else .absent

/-- Name matching of a volume that ignores the case of letters. -/
def sameNameIgnoringCase (stored requested : String) : Bool :=
  stored.data.map Char.toLower == requested.data.map Char.toLower

/-- A case-folding volume whose guides directory holds one regular file, stored
in upper case. -/
def volCaseFolding : Volume where
  sameName := sameNameIgnoringCase
  sameName_refl := fun name => beq_self_eq_true (name.data.map Char.toLower)
  node := fun dir =>
    if dir = "guides" then .directory [⟨"BACKEND_TECHNOLOGIES.MD", some .file⟩]
    else .absent

/-- A case-sensitive volume whose guides directory holds a symbolic link with a
missing target, a sub-directory and a regular file, each named like a catalog
guide. -/
def volMixedKinds : Volume where
  sameName := fun stored requested => stored == requested
  sameName_refl := fun name => beq_self_eq_true name
  node := fun dir =>
    if dir = "guides" then
      .directory
        [ ⟨"Advanced_Topics_Guide.md", none⟩
        , ⟨"Advanced_React_Guide.md", some .directory⟩
        , ⟨"Backend_Technologies.md", some .file⟩ ]
    else .absent

/-! ## Helper lemmas -/

theorem existsSync_eq_true_iff (fsys : FileSystem) (dir fileName : String) :
    existsSync fsys dir fileName = true ↔ fileName ∈ entryNames fsys dir := by
  unfold existsSync entryNames
  generalize fsys dir = node
  cases node <;> simp

theorem status_eq_statusLine (fsys : FileSystem) (dir title file : String) :
    "   " ++ statusGlyph (existsSync fsys dir file) ++ " " ++ title
      = statusLine fsys dir title file := by
  unfold statusLine statusGlyph
  by_cases h : existsSync fsys dir file = true
  · rw [if_pos h, if_pos ((existsSync_eq_true_iff fsys dir file).1 h)]
  · rw [if_neg h, if_neg (fun hm => h ((existsSync_eq_true_iff fsys dir file).2 hm))]

theorem displayMenu_result (fsys : FileSystem) : (displayMenu fsys).result = .ok () := rfl

theorem displayMenu_written (fsys : FileSystem) : (displayMenu fsys).written = menuLines fsys := by
  simp only [menuLines, menuAfterPhases, phaseBlock, lessonLines, itemLines,
    ← status_eq_statusLine]
  rfl

theorem readdirSync_ok_iff (fsys : FileSystem) (dir : String) (names : List String) :
    readdirSync fsys dir = .ok names ↔
      ∃ entries, fsys dir = .directory entries ∧ names = entries.map DirEntry.name := by
  unfold readdirSync
  generalize fsys dir = node
  cases node with
  | absent => simp
  | notDirectory => simp
  | directory entries =>
    constructor
    · intro h
      exact ⟨entries, rfl, (Except.ok.inj h).symm⟩
    · rintro ⟨es, hes, hn⟩
      cases hes
      rw [hn]

theorem getStats_of_listings (fsys : FileSystem) (ls gs rs : List String)
    (hl : readdirSync fsys "lessons" = .ok ls) (hg : readdirSync fsys "guides" = .ok gs)
    (hr : readdirSync fsys "resources" = .ok rs) :
    getStats fsys = .ok
      { totalLessons := ls.length
        totalGuides := gs.length
        totalResources := rs.length
        totalFiles := ls.length + gs.length + rs.length + 2
        estimatedHours := ls.length * 6 + gs.length * 3 + rs.length * 2 } := by
  unfold getStats
  rw [hl, hg, hr]
  rfl

theorem getStats_of_lessons_error (fsys : FileSystem) (e : JsError)
    (hl : readdirSync fsys "lessons" = .error e) : getStats fsys = .error e := by
  unfold getStats
  rw [hl]
  rfl

theorem getStats_error_iff (fsys : FileSystem) :
    (∃ e, getStats fsys = .error e) ↔
      ((∃ e, readdirSync fsys "lessons" = .error e)
        ∨ (∃ e, readdirSync fsys "guides" = .error e)
        ∨ (∃ e, readdirSync fsys "resources" = .error e)) := by
  unfold getStats
  cases hl : readdirSync fsys "lessons" <;> cases hg : readdirSync fsys "guides" <;>
    cases hr : readdirSync fsys "resources" <;>
    simp [bind, Except.bind, pure, Except.pure]

theorem run_of_getStats_error (fsys : FileSystem) (e : JsError)
    (h : getStats fsys = .error e) : run fsys = ⟨headerLines, .error e⟩ := by
  unfold run displayStats
  rw [h]
  rfl

theorem run_of_getStats_ok (fsys : FileSystem) (s : Stats) (h : getStats fsys = .ok s) :
    (run fsys).result = .ok () ∧
      (run fsys).written =
        headerLines
          ++ [ colorize "📊 Repository Statistics:" .green
             , "Total Lessons: " ++ toString s.totalLessons
             , "Total Guides: " ++ toString s.totalGuides
             , "Total Resources: " ++ toString s.totalResources
             , "Total Files: " ++ toString s.totalFiles
             , "Estimated Learning Time: " ++ toString s.estimatedHours ++ " hours"
             , "" ]
          ++ (displayMenu fsys).written ++ closingLines := by
  unfold run displayStats
  rw [h]
  exact ⟨rfl, rfl⟩

theorem entryNames_of_readdirSync (fsys : FileSystem) (dir : String) (names : List String)
    (h : readdirSync fsys dir = .ok names) : entryNames fsys dir = names := by
  obtain ⟨entries, he, hn⟩ := (readdirSync_ok_iff fsys dir names).1 h
  unfold entryNames
  rw [he, hn]

theorem statusLine_of_not_mem (fsys : FileSystem) (dir title file : String)
    (h : file ∉ entryNames fsys dir) :
    statusLine fsys dir title file = "   " ++ "❌" ++ " " ++ title := by
  unfold statusLine
  rw [if_neg h]

theorem statusLine_of_mem (fsys : FileSystem) (dir title file : String)
    (h : file ∈ entryNames fsys dir) :
    statusLine fsys dir title file = "   " ++ "✅" ++ " " ++ title := by
  unfold statusLine
  rw [if_pos h]

/-- The model does throw when a phase has fewer files than lessons: the second
lesson of `shortPhase` reads `undefined` and `path.join` raises. -/
theorem displayPhases_shortPhase (fsys : FileSystem) :
    (displayPhases fsys [shortPhase]).result = .error .TypeError := rfl

/-- In `fsPhase1Only` the menu shows exactly seven present glyphs. -/
theorem showsPresent_count_fsPhase1Only :
    (displayMenu fsPhase1Only).written.countP showsPresent = 7 := by
  decide

theorem Volume.existsSync_true_iff_resolves (vol : Volume) (dir fileName : String) :
    vol.existsSync dir fileName = true ↔
      ∃ entries, vol.node dir = .directory entries ∧
        ∃ e ∈ entries, vol.sameName e.name fileName = true ∧ ∃ kind, e.target = some kind := by
  unfold Volume.existsSync Volume.statSync
  generalize vol.node dir = node
  cases node with
  | absent => simp
  | notDirectory => simp
  | directory entries =>
    simp only [VolumeNode.directory.injEq, exists_eq_left']
    generalize hfind : (entries.findSome? fun e =>
        if vol.sameName e.name fileName then e.target else none) = found
    cases found with
    | some kind =>
      refine ⟨fun _ => ?_, fun _ => rfl⟩
      obtain ⟨e, he, hk⟩ := List.exists_of_findSome?_eq_some hfind
      by_cases hsame : vol.sameName e.name fileName = true
      · rw [if_pos hsame] at hk
        exact ⟨e, he, hsame, kind, hk⟩
      · rw [if_neg hsame] at hk
        cases hk
    | none =>
      refine ⟨fun h => Bool.noConfusion h, ?_⟩
      rintro ⟨e, he, hsame, kind, hk⟩
      have hnone := (List.findSome?_eq_none_iff.1 hfind) e he
      rw [if_pos hsame, hk] at hnone
      cases hnone

theorem FileSystem.toVolume_node (fsys : FileSystem) (dir : String) :
    (FileSystem.toVolume fsys).node dir =
      match fsys dir with
      | .absent => .absent
      | .notDirectory => .notDirectory
      | .directory entries => .directory (entries.map fun e => ⟨e.name, some e.kind⟩) := rfl

theorem FileSystem.toVolume_sameName (fsys : FileSystem) (stored requested : String) :
    (FileSystem.toVolume fsys).sameName stored requested = (stored == requested) := rfl

theorem FileSystem.existsSync_toVolume (fsys : FileSystem) (dir fileName : String) :
    (FileSystem.toVolume fsys).existsSync dir fileName = existsSync fsys dir fileName := by
  rw [Bool.eq_iff_iff, Volume.existsSync_true_iff_resolves, FileSystem.toVolume_node]
  unfold existsSync
  generalize fsys dir = node
  cases node with
  | absent => simp
  | notDirectory => simp
  | directory entries =>
    simp only [VolumeNode.directory.injEq, exists_eq_left', List.any_eq_true, beq_iff_eq,
      FileSystem.toVolume_sameName]
    constructor
    · rintro ⟨e, he, hsame, -⟩
      obtain ⟨e0, he0, rfl⟩ := List.mem_map.1 he
      exact ⟨e0, he0, hsame⟩
    · rintro ⟨e0, he0, hsame⟩
      exact ⟨⟨e0.name, some e0.kind⟩, List.mem_map.2 ⟨e0, he0, rfl⟩, hsame, e0.kind, rfl⟩

/-- On a case-folding volume a file stored in upper case answers the check for
the catalog name, which differs from it as a string. -/
theorem volCaseFolding_matches_ignoring_case :
    volCaseFolding.existsSync "guides" "Backend_Technologies.md" = true
      ∧ "BACKEND_TECHNOLOGIES.MD" ≠ "Backend_Technologies.md" := by
  decide

/-- A symbolic link whose target is missing is listed in its directory and yet
does not answer the check. -/
theorem volMixedKinds_dangling_link :
    volMixedKinds.existsSync "guides" "Advanced_Topics_Guide.md" = false
      ∧ volMixedKinds.statSync "guides" "Advanced_React_Guide.md" = .ok .directory :=
  ⟨rfl, rfl⟩

/-! ## The claims -/

/-- C2: whenever the three base directories can be listed, `getStats` returns, and
its `totalFiles` is the number of entries listed in the lessons directory plus
the number listed in the guides directory plus the number listed in the
resources directory plus 2. -/
theorem getStats_totalFiles (fsys : FileSystem) (ls gs rs : List String)
    (hl : readdirSync fsys "lessons" = .ok ls) (hg : readdirSync fsys "guides" = .ok gs)
    (hr : readdirSync fsys "resources" = .ok rs) :
    ∃ s, getStats fsys = .ok s ∧ s.totalFiles = ls.length + gs.length + rs.length + 2 :=
  ⟨_, getStats_of_listings fsys ls gs rs hl hg hr, rfl⟩

theorem getStats_totalFiles_witness :
    ∃ s, getStats fsPhase1Only = .ok s ∧ s.totalFiles = 9 :=
  getStats_totalFiles fsPhase1Only
    [ "Lesson 00_ Computer Basics.md", "Lesson 00.5_ Internet Concepts.md"
    , "Lesson 00.75_ Git and GitHub.md", "Lesson 01_ Introduction to Web Development.md"
    , "Lesson 02_ HTML Basics.md", "Lesson 03_ CSS Basics.md"
    , "Lesson 04_ JavaScript Basics.md" ] [] [] rfl rfl rfl

/-- C3: whenever the three base directories can be listed, `getStats` returns, and
its `estimatedHours` is exactly six times the number of entries listed in the
lessons directory plus three times the number listed in the guides directory
plus twice the number listed in the resources directory. -/
theorem getStats_estimatedHours (fsys : FileSystem) (ls gs rs : List String)
    (hl : readdirSync fsys "lessons" = .ok ls) (hg : readdirSync fsys "guides" = .ok gs)
    (hr : readdirSync fsys "resources" = .ok rs) :
    ∃ s, getStats fsys = .ok s ∧
      s.estimatedHours = ls.length * 6 + gs.length * 3 + rs.length * 2 :=
  ⟨_, getStats_of_listings fsys ls gs rs hl hg hr, rfl⟩

theorem getStats_estimatedHours_witness :
    ∃ s, getStats fsStrayFiles = .ok s ∧ s.estimatedHours = 11 :=
  getStats_estimatedHours fsStrayFiles ["notes.txt"] ["draft.md"] ["links.txt"] rfl rfl rfl

/-- C9: in the static catalog the 21 lesson file names (over all phases) are
pairwise distinct, the 12 guide file names are pairwise distinct, and the 3
resource file names are pairwise distinct. -/
theorem catalog_file_names_distinct :
    (lessonFiles.Nodup ∧ lessonFiles.length = 21)
      ∧ ((guides.map Item.file).Nodup ∧ (guides.map Item.file).length = 12)
      ∧ ((resources.map Item.file).Nodup ∧ (resources.map Item.file).length = 3) := by
  decide

/-- C10: every phase of the static catalog has as many files as lessons, so for
every lesson index the read `phase.files[lessonIndex]` yields a file name and
not `undefined`, and the lesson loop of `displayMenu` never throws, whatever
the file-system state. -/
theorem phases_files_lookup_in_range :
    (∀ p ∈ phases, p.lessons.length = p.files.length)
      ∧ (∀ p ∈ phases, ∀ i, i < p.lessons.length → ∃ f, p.files[i]? = some f)
      ∧ (∀ fsys, (displayPhases fsys phases).result = .ok ())
      ∧ (∀ fsys, (displayMenu fsys).result = .ok ()) := by
  have hlen : ∀ p ∈ phases, p.lessons.length = p.files.length := by decide
  refine ⟨hlen, ?_, fun _ => rfl, fun _ => rfl⟩
  intro p hp i hi
  have hi2 : i < p.files.length := hlen p hp ▸ hi
  exact ⟨p.files[i], List.getElem?_eq_getElem hi2⟩

theorem phases_files_lookup_in_range_witness :
    ∃ f, (phases.getD 4 shortPhase).files[1]? = some f :=
  phases_files_lookup_in_range.2.1 (phases.getD 4 shortPhase) (by decide) 1 (by decide)

/-- C1: for every file-system state (in particular every one in which the three
base directories can be listed) the menu written by `displayMenu` is the
learning-path heading, then one block per phase in declared order, then the
guide and resource parts; the block of a phase is its heading, one status line
per lesson in declared order, and a blank line; a status line is three spaces,
glyph, space, lesson title, the glyph being the present glyph iff the file name
at the same index of the phase's files is an entry of the lessons directory.
There are 7, 4, 4, 4 and 2 such lines, 21 in all.  When the lessons directory
holds exactly the 7 Phase-1 files, the first 7 lesson lines show the present
glyph and the remaining 14 the missing glyph. -/
theorem displayMenu_lesson_status_lines (fsys : FileSystem) :
    (displayMenu fsys).written
        = learningPathHeading
          ++ (phases.enum.flatMap fun ip =>
                colorize (toString (ip.1 + 1) ++ ". " ++ ip.2.name) .yellow
                  :: lessonLines fsys ip.2 ++ [""])
          ++ menuAfterPhases fsys
      ∧ (∀ p, lessonLines fsys p
          = (p.lessons.zip p.files).map fun tf =>
              "   " ++ (if tf.2 ∈ entryNames fsys "lessons" then "✅" else "❌") ++ " " ++ tf.1)
      ∧ phases.map (fun p => p.lessons.length) = [7, 4, 4, 4, 2]
      ∧ phases.map (fun p => (lessonLines fsys p).length) = [7, 4, 4, 4, 2]
      ∧ (phases.flatMap (lessonLines fsys)).length = 21
      ∧ ((∀ name, name ∈ entryNames fsys "lessons" ↔ name ∈ (phases.take 1).flatMap Phase.files) →
          phases.flatMap (lessonLines fsys)
            = (lessonTitles.take 7).map (fun title => "   " ++ "✅" ++ " " ++ title)
              ++ (lessonTitles.drop 7).map (fun title => "   " ++ "❌" ++ " " ++ title)) := by
  refine ⟨displayMenu_written fsys, fun _ => rfl, rfl, rfl, rfl, ?_⟩
  intro hiff
  have key : ∀ title file, statusLine fsys "lessons" title file
      = "   " ++ (if file ∈ (phases.take 1).flatMap Phase.files then "✅" else "❌")
          ++ " " ++ title := by
    intro title file
    by_cases h : file ∈ (phases.take 1).flatMap Phase.files
    · rw [statusLine_of_mem fsys "lessons" title file ((hiff file).2 h), if_pos h]
    · rw [statusLine_of_not_mem fsys "lessons" title file (fun hm => h ((hiff file).1 hm)),
        if_neg h]
  have hlines : lessonLines fsys = fun p => (p.lessons.zip p.files).map fun tf =>
      "   " ++ (if tf.2 ∈ (phases.take 1).flatMap Phase.files then "✅" else "❌")
        ++ " " ++ tf.1 := by
    funext p
    unfold lessonLines
    exact List.map_congr_left fun tf _ => key tf.1 tf.2
  rw [hlines]
  decide

theorem displayMenu_lesson_status_lines_witness :
    phases.flatMap (lessonLines fsPhase1Only)
      = [ "   ✅ Lesson 0: Computer Basics"
        , "   ✅ Lesson 0.5: Internet Concepts"
        , "   ✅ Lesson 0.75: Git and GitHub"
        , "   ✅ Lesson 1: Introduction to Web Development"
        , "   ✅ Lesson 2: HTML Basics"
        , "   ✅ Lesson 3: CSS Basics"
        , "   ✅ Lesson 4: JavaScript Basics"
        , "   ❌ Lesson 5: Backend Development and Node.js"
        , "   ❌ Lesson 6: Express.js"
        , "   ❌ Lesson 7: Databases and MongoDB"
        , "   ❌ Lesson 8: Mongoose"
        , "   ❌ Lesson 9: React Basics"
        , "   ❌ Lesson 10: React Hooks"
        , "   ❌ Lesson 11: React Router"
        , "   ❌ Lesson 12: Redux"
        , "   ❌ Lesson 13: Authentication & Authorization"
        , "   ❌ Lesson 14: Testing - Unit, Integration & E2E"
        , "   ❌ Lesson 15: Deployment & DevOps"
        , "   ❌ Lesson 16: Full-Stack Development Roadmap & Best Practices"
        , "   ❌ Lesson 17: API Design and GraphQL"
        , "   ❌ Lesson 18: Real-Time Applications with WebSockets" ] :=
  ((displayMenu_lesson_status_lines fsPhase1Only).2.2.2.2.2 (fun _ => Iff.rfl)).trans
    (by decide)

/-- C4: if listing the lessons directory fails, `run` ends with that error and
what it has written is exactly the three header lines: no statistics line and
no menu line, since the statistics are computed before anything else is
printed after the header. -/
theorem run_lessons_listing_fails (fsys : FileSystem) (e : JsError)
    (h : readdirSync fsys "lessons" = .error e) :
    (run fsys).result = .error e
      ∧ (run fsys).written = displayHeader.written
      ∧ (run fsys).written
          = [ colorize "🚀 Ultimate Full-Stack Web Development Guide" .cyan
            , colorize "===============================================" .yellow
            , "" ] := by
  rw [run_of_getStats_error fsys e (getStats_of_lessons_error fsys e h)]
  exact ⟨rfl, rfl, rfl⟩

theorem run_lessons_listing_fails_witness :
    (run fsNoLessons).result = .error (.ENOENT "lessons")
      ∧ (run fsNoLessons).written
          = [ "\x1b[36m🚀 Ultimate Full-Stack Web Development Guide\x1b[0m"
            , "\x1b[33m===============================================\x1b[0m"
            , "" ] :=
  have h := run_lessons_listing_fails fsNoLessons (.ENOENT "lessons") rfl
  ⟨h.1, h.2.2.trans (by decide)⟩

/-- C5: `run` fails iff listing one of the three base directories fails; when all
three can be listed it completes normally and has written the header, the
statistics block, the full menu and the closing line, in that order, whatever
catalog files are missing. -/
theorem run_fails_iff_listing_fails (fsys : FileSystem) :
    ((∃ e, (run fsys).result = .error e) ↔
        ((∃ e, readdirSync fsys "lessons" = .error e)
          ∨ (∃ e, readdirSync fsys "guides" = .error e)
          ∨ (∃ e, readdirSync fsys "resources" = .error e)))
      ∧ (∀ ls gs rs, readdirSync fsys "lessons" = .ok ls → readdirSync fsys "guides" = .ok gs →
          readdirSync fsys "resources" = .ok rs →
          (run fsys).result = .ok ()
            ∧ (run fsys).written
                = headerLines ++ statsLines ls.length gs.length rs.length
                    ++ menuLines fsys ++ closingLines) := by
  constructor
  · rw [← getStats_error_iff]
    cases hs : getStats fsys with
    | error e =>
      rw [run_of_getStats_error fsys e hs]
      exact ⟨fun _ => ⟨e, rfl⟩, fun _ => ⟨e, rfl⟩⟩
    | ok s =>
      rw [(run_of_getStats_ok fsys s hs).1]
      constructor
      · rintro ⟨e, he⟩
        cases he
      · rintro ⟨e, he⟩
        cases he
  · intro ls gs rs hl hg hr
    have hs := run_of_getStats_ok fsys _ (getStats_of_listings fsys ls gs rs hl hg hr)
    refine ⟨hs.1, ?_⟩
    rw [hs.2, displayMenu_written]
    rfl

theorem run_fails_iff_listing_fails_witness :
    (run fsEmptyDirs).result = .ok ()
      ∧ (run fsEmptyDirs).written
          = headerLines ++ statsLines 0 0 0 ++ menuLines fsEmptyDirs ++ closingLines :=
  (run_fails_iff_listing_fails fsEmptyDirs).2 [] [] [] rfl rfl rfl

/-- C6, as stated, fails: in `fsGuideIsDirectory` the guides directory holds a
sub-directory named `Advanced_React_Guide.md`; the existence check answers
true although no regular file of that name is there. -/
theorem existsSync_true_without_regular_file :
    existsSync fsGuideIsDirectory "guides" "Advanced_React_Guide.md" = true
      ∧ ¬ HasRegularFile fsGuideIsDirectory "guides" "Advanced_React_Guide.md" := by
  refine ⟨rfl, ?_⟩
  rintro ⟨entries, hdir, e, he, -, hkind⟩
  have hentries : entries = [⟨"Advanced_React_Guide.md", .directory⟩] :=
    (BaseNode.directory.inj hdir).symm
  subst hentries
  rw [List.mem_singleton] at he
  subst he
  cases hkind

/-- C6, amended: for every base directory, file name and volume state the
existence check is true iff some entry directly under the base directory is
taken by the volume to bear that name and resolves to an existing object,
whatever its kind.  Hence a regular file with exactly that name makes it true;
on a case-sensitive volume the name must be exactly that name (no partial, no
case-insensitive match); a missing base directory, a missing name or a link
whose target is missing makes it false instead of raising; and on the
`FileSystem` states the menu is stated over it is the check `existsSync`. -/
theorem existsSync_iff_entry_resolves (vol : Volume) (dir fileName : String) :
    (vol.existsSync dir fileName = true ↔
        ∃ entries, vol.node dir = .directory entries ∧
          ∃ e ∈ entries, vol.sameName e.name fileName = true ∧ ∃ kind, e.target = some kind)
      ∧ ((∃ entries, vol.node dir = .directory entries ∧
            ∃ e ∈ entries, e.name = fileName ∧ e.target = some .file) →
          vol.existsSync dir fileName = true)
      ∧ ((∀ stored requested, vol.sameName stored requested = true → stored = requested) →
          (vol.existsSync dir fileName = true ↔
            ∃ entries, vol.node dir = .directory entries ∧
              ∃ e ∈ entries, e.name = fileName ∧ ∃ kind, e.target = some kind))
      ∧ ((∀ entries, vol.node dir ≠ .directory entries) → vol.existsSync dir fileName = false)
      ∧ (∀ entries, vol.node dir = .directory entries →
          (∀ e ∈ entries, vol.sameName e.name fileName = true → e.target = none) →
          vol.existsSync dir fileName = false)
      ∧ (∀ fsys : FileSystem,
          existsSync fsys dir fileName = (FileSystem.toVolume fsys).existsSync dir fileName) := by
  have hiff := Volume.existsSync_true_iff_resolves vol dir fileName
  refine ⟨hiff, ?_, ?_, ?_, ?_, fun fsys => (FileSystem.existsSync_toVolume fsys dir fileName).symm⟩
  · rintro ⟨entries, hdir, e, he, hname, htarget⟩
    exact hiff.2 ⟨entries, hdir, e, he, hname ▸ vol.sameName_refl e.name, _, htarget⟩
  · intro hexact
    rw [hiff]
    constructor
    · rintro ⟨entries, hdir, e, he, hname, hkind⟩
      exact ⟨entries, hdir, e, he, hexact _ _ hname, hkind⟩
    · rintro ⟨entries, hdir, e, he, hname, hkind⟩
      exact ⟨entries, hdir, e, he, hname ▸ vol.sameName_refl e.name, hkind⟩
  · intro hno
    rw [Bool.eq_false_iff]
    intro htrue
    obtain ⟨entries, hdir, -⟩ := hiff.1 htrue
    exact hno entries hdir
  · intro entries hdir hnone
    rw [Bool.eq_false_iff]
    intro htrue
    obtain ⟨entries2, hdir2, e, he, hname, kind, hkind⟩ := hiff.1 htrue
    rw [hdir] at hdir2
    cases hdir2
    rw [hnone e he hname] at hkind
    cases hkind

theorem existsSync_iff_entry_resolves_witness :
    volMixedKinds.existsSync "guides" "Backend_Technologies.md" = true
      ∧ (volMixedKinds.existsSync "guides" "Advanced_React_Guide.md" = true ↔
          ∃ entries, volMixedKinds.node "guides" = .directory entries ∧
            ∃ e ∈ entries, e.name = "Advanced_React_Guide.md" ∧ ∃ kind, e.target = some kind)
      ∧ volMixedKinds.existsSync "guides" "Advanced_Topics_Guide.md" = false
      ∧ volMixedKinds.existsSync "lessons" "Lesson 02_ HTML Basics.md" = false :=
  ⟨(existsSync_iff_entry_resolves volMixedKinds "guides" "Backend_Technologies.md").2.1
      ⟨_, rfl, ⟨"Backend_Technologies.md", some .file⟩, by decide, rfl, rfl⟩,
    (existsSync_iff_entry_resolves volMixedKinds "guides" "Advanced_React_Guide.md").2.2.1
      (fun _ _ h => eq_of_beq h),
    (existsSync_iff_entry_resolves volMixedKinds "guides" "Advanced_Topics_Guide.md").2.2.2.2.1
      _ rfl (by decide),
    (existsSync_iff_entry_resolves volMixedKinds "lessons" "Lesson 02_ HTML Basics.md").2.2.2.1
      (fun _ h => VolumeNode.noConfusion h)⟩

/-- C7: the statistics count the entries listed, not the catalog entries found,
and so can disagree with the checklist: in `fsStrayFiles` each directory lists
one file that is not in the catalog, `getStats` reports one lesson, one guide
and one resource, and yet no lesson line, no guide line and no resource line
of the menu (indeed no line at all) shows the present glyph. -/
theorem stats_disagree_with_checklist :
    ∃ s ls gs rs,
      readdirSync fsStrayFiles "lessons" = .ok ls
        ∧ readdirSync fsStrayFiles "guides" = .ok gs
        ∧ readdirSync fsStrayFiles "resources" = .ok rs
        ∧ getStats fsStrayFiles = .ok s
        ∧ (s.totalLessons = ls.length ∧ s.totalGuides = gs.length
            ∧ s.totalResources = rs.length)
        ∧ s.totalLessons ≠ (phases.flatMap (lessonLines fsStrayFiles)).countP showsPresent
        ∧ s.totalGuides ≠ (itemLines fsStrayFiles "guides" guides).countP showsPresent
        ∧ s.totalResources
            ≠ (itemLines fsStrayFiles "resources" resources).countP showsPresent
        ∧ (displayMenu fsStrayFiles).written.countP showsPresent = 0 :=
  ⟨⟨1, 1, 1, 5, 11⟩, ["notes.txt"], ["draft.md"], ["links.txt"], rfl, rfl, rfl, rfl,
    ⟨rfl, rfl, rfl⟩, by decide, by decide, by decide, by decide⟩

/-- C8, as stated, fails: in `fsNoLessons` the guides directory exists and is
empty, but `getStats` lists the lessons directory first, which is absent, and
throws instead of returning `totalGuides == 0`. -/
theorem getStats_empty_guides_can_throw :
    readdirSync fsNoLessons "guides" = .ok []
      ∧ getStats fsNoLessons = .error (.ENOENT "lessons")
      ∧ ¬ ∃ s, getStats fsNoLessons = .ok s ∧ s.totalGuides = 0 := by
  refine ⟨rfl, rfl, ?_⟩
  rintro ⟨s, hs, -⟩
  have herr : getStats fsNoLessons = .error (.ENOENT "lessons") := rfl
  rw [herr] at hs
  cases hs

/-- C8, amended: whenever the guides directory exists and its listing is empty,
the guide part of the menu written by `displayMenu` is the guides heading
followed by the 12 guide lines, in declared guide order, each showing the
missing glyph; and if moreover the lessons and resources directories can be
listed, `getStats` returns with `totalGuides == 0`. -/
theorem empty_guides_directory (fsys : FileSystem)
    (hg : readdirSync fsys "guides" = .ok []) :
    ((displayMenu fsys).written
        = learningPathHeading
          ++ (phases.enum.flatMap fun ip => phaseBlock fsys (ip.1 + 1) ip.2)
          ++ guidesHeading
          ++ guides.map (fun guide => "   " ++ "❌" ++ " " ++ guide.name)
          ++ resourcesHeading ++ itemLines fsys "resources" resources ++ tipsAndNextSteps)
      ∧ (guides.map (fun guide => "   " ++ "❌" ++ " " ++ guide.name)).length = 12
      ∧ (∀ ls rs, readdirSync fsys "lessons" = .ok ls → readdirSync fsys "resources" = .ok rs →
          ∃ s, getStats fsys = .ok s ∧ s.totalGuides = 0) := by
  have hnames : entryNames fsys "guides" = [] := entryNames_of_readdirSync fsys "guides" [] hg
  have hlines : itemLines fsys "guides" guides
      = guides.map (fun guide => "   " ++ "❌" ++ " " ++ guide.name) := by
    unfold itemLines
    refine List.map_congr_left fun guide _ => ?_
    exact statusLine_of_not_mem fsys "guides" guide.name guide.file
      (by rw [hnames]; exact List.not_mem_nil _)
  refine ⟨?_, rfl, ?_⟩
  · rw [displayMenu_written, menuLines, menuAfterPhases, hlines]
    simp only [List.append_assoc]
  · intro ls rs hl hr
    exact ⟨_, getStats_of_listings fsys ls [] rs hl hg hr, rfl⟩

theorem empty_guides_directory_witness :
    (∃ s, getStats fsEmptyDirs = .ok s ∧ s.totalGuides = 0)
      ∧ (guides.map (fun guide => "   " ++ "❌" ++ " " ++ guide.name))
          = [ "   ❌ Advanced JavaScript Guide"
            , "   ❌ Advanced React Guide"
            , "   ❌ Advanced Topics Guide"
            , "   ❌ API Calling & HTTP Methods Guide"
            , "   ❌ Backend Technologies"
            , "   ❌ Database Technologies"
            , "   ❌ DevOps Deployment"
            , "   ❌ Frontend Technologies"
            , "   ❌ Postman API Testing Guide"
            , "   ❌ Programming Languages Guide"
            , "   ❌ Tools & Frameworks"
            , "   ❌ Website Libraries & Framework Guide" ] :=
  ⟨(empty_guides_directory fsEmptyDirs rfl).2.2 [] [] rfl rfl, by decide⟩

end GuideExplorer
